import Mathlib

/-!
Shallow embedding of the job-control core of `shell.c` (a small POSIX-style
shell with job control).  The global mutable state of the C program (the
linked job list, `nextJobId`, `activeJobs`) is modelled as an explicit
`ShellState` record threaded through the operations.  OS effects (fork,
waitpid, kill, tcsetpgrp, printf) are modelled as an event trace plus
outcome oracles passed in as parameters; the signal mask manipulated with
`sigprocmask` is modelled as a `Int → Bool` predicate on signal numbers.
-/

/-- Signal numbers (values as on Linux; only used symbolically). -/
def SIGHUP : Int := 1

def SIGTERM : Int := 15

def SIGCHLD : Int := 17

def SIGCONT : Int := 18

/-- `job_state` enum from shell.c. -/
inductive job_state where
  | RUNNING
  | STOPPED
  | TERMINATED
  | COMPLETED
deriving DecidableEq, Repr, BEq

open job_state

/-- `struct job` from shell.c (the `next` pointer is replaced by the job's
position in the `jobList` below; `bgProcess : int` used as a flag becomes
`Bool`). -/
structure job where
  id : Int
  command : String
  originalCommand : String
  pgid : Int
  state : job_state
  bgProcess : Bool
  termSig : Int
deriving DecidableEq, Repr

/-- The shell's global job-registry state: the linked list headed by
`jobListHead` (insertion order, head first), and the counters `nextJobId`
and `activeJobs`. -/
structure ShellState where
  jobList : List job
  nextJobId : Int
  activeJobs : Int
deriving DecidableEq, Repr

/-- State after `initJobs()` at shell start-up. -/
def initState : ShellState := ⟨[], 1, 0⟩

/-- `createJob` from shell.c: allocates a job with the next id.  The id is 1
when `activeJobs == 0`, otherwise `nextJobId + 1`; `nextJobId` is updated to
the assigned id.  Returns the new job together with the updated globals. -/
def createJob (command originalCommand : String) (pgid : Int) (state : job_state)
    (bgProcess : Bool) (s : ShellState) : job × ShellState :=
  let nid : Int := if s.activeJobs = 0 then 1 else s.nextJobId + 1
  (⟨nid, command, originalCommand, pgid, state, bgProcess, -1⟩, { s with nextJobId := nid })

/-- `addJob` from shell.c: appends at the tail and bumps `activeJobs`. -/
def addJob (j : job) (s : ShellState) : ShellState :=
  { s with jobList := s.jobList ++ [j], activeJobs := s.activeJobs + 1 }

/-- `markJob` from shell.c: finds the first job with the given pgid and sets
its state (and `termSig` when the new state is `TERMINATED`).  Returns
`none` when no job has that pgid (the C function returns -1 and leaves the
list untouched). -/
def markJobList (l : List job) (pgid : Int) (state : job_state) (termSig : Int) :
    Option (List job) :=
  match l with
  | [] => none
  | j :: rest =>
    if j.pgid = pgid then
      some ({ j with
                state := state,
                termSig := if state = TERMINATED then termSig else j.termSig } :: rest)
    else
      (markJobList rest pgid state termSig).map (fun r => j :: r)

/-- Terminated-job notice printed by `cleanUpJobs`:
`[%d] %d terminated by signal %d`. -/
def termNotice (j : job) : String :=
  "[" ++ toString j.id ++ "] " ++ toString j.pgid ++ " terminated by signal "
    ++ toString j.termSig

/-- The traversal inside `cleanUpJobs` from shell.c: one pass over the list
that drops every COMPLETED/TERMINATED job, printing the notice for each
TERMINATED job (in list order, before unlinking it).  Returns the printed
lines and the surviving list. -/
def cleanUpJobsList (l : List job) : List String × List job :=
  match l with
  | [] => ([], [])
  | j :: rest =>
    let p := cleanUpJobsList rest
    if j.state = COMPLETED ∨ j.state = TERMINATED then
      (if j.state = TERMINATED then termNotice j :: p.1 else p.1, p.2)
    else
      (p.1, j :: p.2)

/-- `cleanUpJobs` from shell.c at the state level: runs the pass (under a
blocked SIGCHLD mask in C) and decrements `activeJobs` once per removed
job. -/
def cleanUpJobs (s : ShellState) : List String × ShellState :=
  let p := cleanUpJobsList s.jobList
  (p.1, { s with
            jobList := p.2,
            activeJobs := s.activeJobs - ((s.jobList.length : Int) - (p.2.length : Int)) })

/-- The state word printed by `printJobs` (nothing is printed for
TERMINATED/COMPLETED jobs: the two `if`s in the C code both fail). -/
def stateWord (st : job_state) : String :=
  if st = RUNNING then "Running " else if st = STOPPED then "Stopped " else ""

/-- One output line of `printJobs` from shell.c:
`[%d] %d ` then the state word, then `%s ` (the original command), then `&`
for background jobs. -/
def printJobLine (j : job) : String :=
  "[" ++ toString j.id ++ "] " ++ toString j.pgid ++ " " ++ stateWord j.state
    ++ j.originalCommand ++ " " ++ (if j.bgProcess then "&" else "")

/-- `printJobs` from shell.c: one line per job, list order. -/
def printJobs (l : List job) : List String :=
  l.map printJobLine

/-- The `jobs` builtin from shell.c: with more than one token it errors,
otherwise it prints the registry. -/
def jobs (numTokens : Int) (s : ShellState) : List String :=
  if numTokens > 1 then ["jobs: too many arguments"] else printJobs s.jobList

/-- `stringToJobId` from shell.c: `%` followed by any (possibly empty) run of
digits parses to the number; anything else returns -1. -/
def stringToJobIdLoop (cs : List Char) (acc : Int) : Int :=
  match cs with
  | [] => acc
  | c :: rest =>
    if ¬c.isDigit then -1
    else stringToJobIdLoop rest (acc * 10 + ((c.toNat : Int) - ('0'.toNat : Int)))

/-- `stringToJobId` from shell.c (entry point). -/
def stringToJobId (s : String) : Int :=
  match s.data with
  | [] => -1
  | c :: rest => if c ≠ '%' then -1 else stringToJobIdLoop rest 0

/-- The `while (current != NULL && current->id != jid)` search used by
`bg`/`fg`/`killFunc`. -/
def findById (l : List job) (jid : Int) : Option job :=
  match l with
  | [] => none
  | j :: rest => if j.id = jid then some j else findById rest jid

/-- Mutation through the `current` pointer in `bg`/`fg`/`killFunc`: updates
the first job with the given id. -/
def updateById (l : List job) (jid : Int) (f : job → job) : List job :=
  match l with
  | [] => []
  | j :: rest => if j.id = jid then f j :: rest else j :: updateById rest jid f

/-- Mutation through the `j` pointer in `runCommand`'s foreground branch:
`j` is the job just appended at the tail. -/
def updateTail (l : List job) (f : job → job) : List job :=
  match l with
  | [] => []
  | [j] => [f j]
  | j :: rest => j :: updateTail rest f

/-- `joinString` from shell.c: space-joined argv. -/
def joinString (argv : List String) : String :=
  match argv with
  | [] => ""
  | [a] => a
  | a :: rest => a ++ " " ++ joinString rest

/-- Observable OS-level effects performed by the shell code: stdout lines,
`kill` calls, `tcsetpgrp` handoff/reclaim, and the blocking `waitpid`.
`printErrno` stands for `puts(strerror(errno))`. -/
inductive Event where
  | print (line : String)
  | printErrno
  | sendSignal (pgid sig : Int)
  | termTo (pgid : Int)
  | waitFor (pgid : Int)
  | termReclaim
deriving DecidableEq, Repr

/-- Decoded `waitpid` status: exactly one of `WIFEXITED`, `WIFSTOPPED`,
`WIFSIGNALED` holds for a reported status. -/
inductive ChildStatus where
  | exited (code : Int)
  | stopped (sig : Int)
  | signaled (sig : Int)
deriving DecidableEq, Repr

/-- The three `WIF*` branches shared by `runCommand`, `fg` and the SIGCHLD
handler: exit → COMPLETED, stop → STOPPED, signal → TERMINATED + `termSig`. -/
def applyWaitStatus (st : ChildStatus) (j : job) : job :=
  match st with
  | .exited _ => { j with state := COMPLETED }
  | .stopped _ => { j with state := STOPPED }
  | .signaled sg => { j with
                       state := TERMINATED,
                       termSig := sg }

/-- One iteration of the `waitpid(-1, …, WUNTRACED | WNOHANG)` loop in
`sigchldHandler`: dispatch on the status and mark the job by pgid; when no
job has that pgid, `markJob` returns -1 and the registry is unchanged. -/
def reapEvent (l : List job) (pid : Int) (st : ChildStatus) : List job :=
  match st with
  | .exited _ => (markJobList l pid COMPLETED (-1)).getD l
  | .stopped _ => (markJobList l pid STOPPED (-1)).getD l
  | .signaled sg => (markJobList l pid TERMINATED sg).getD l

/-- `sigchldHandler` from shell.c: the reap loop, processing every child the
OS reports as changed (the loop runs until `waitpid` returns no more pids;
the list of `(pid, status)` pairs is that reported sequence). -/
def sigchldHandler (l : List job) (reaps : List (Int × ChildStatus)) : List job :=
  match reaps with
  | [] => l
  | (pid, st) :: rest => sigchldHandler (reapEvent l pid st) rest

/-- `bg` from shell.c.  `contOk` is the outcome oracle for
`kill(pgid, SIGCONT)`.  Returns the trace of effects and the new state. -/
def bg (argv : List String) (numTokens : Int) (contOk : Bool) (s : ShellState) :
    List Event × ShellState :=
  if numTokens ≠ 2 then ([.print "bg: wrong number of arguments"], s)
  else
    let jid := stringToJobId (argv.getD 1 "")
    if jid = -1 then ([.print "bg: invalid job id"], s)
    else
      match findById s.jobList jid with
      | none => ([.print "bg: job not found"], s)
      | some cur =>
        if cur.state = RUNNING then ([.print "bg: job is already running"], s)
        else
          let l1 := updateById s.jobList jid (fun j => { j with
                                                          bgProcess := true,
                                                          state := RUNNING })
          if contOk then
            ([.sendSignal cur.pgid SIGCONT], { s with jobList := l1 })
          else
            ([.sendSignal cur.pgid SIGCONT, .print "bg: could not continue process"],
             { s with jobList := l1 })

/-- `fg` from shell.c.  `contOk` is the outcome of `kill(pgid, SIGCONT)`;
`waitRes` is the outcome of `waitpid(pgid, &status, WUNTRACED)` (`none` =
the call failed); `callerMask` is the signal mask in effect when `fg` is
entered (main has SIGCHLD blocked there).  The middle component records the
mask in effect at the blocking `waitpid`, when it is reached. -/
def fg (argv : List String) (numTokens : Int) (contOk : Bool)
    (waitRes : Option ChildStatus) (callerMask : Int → Bool) (s : ShellState) :
    List Event × Option (Int → Bool) × ShellState :=
  if numTokens ≠ 2 then ([.print "fg: wrong number of arguments"], none, s)
  else
    let jid := stringToJobId (argv.getD 1 "")
    if jid = -1 then ([.print "fg: invalid job id"], none, s)
    else
      match findById s.jobList jid with
      | none => ([.print "fg: job not found"], none, s)
      | some cur =>
        let l1 := updateById s.jobList jid (fun j => { j with bgProcess := false })
        if cur.state = STOPPED ∧ contOk = false then
          ([.sendSignal cur.pgid SIGCONT, .print "fg: could not continue process"],
           none, { s with jobList := l1 })
        else
          let contEvents : List Event :=
            if cur.state = STOPPED then [.sendSignal cur.pgid SIGCONT] else []
          let l2 := if cur.state = STOPPED then
              updateById l1 jid (fun j => { j with state := RUNNING })
            else l1
          let evs := contEvents ++ [.termTo cur.pgid, .waitFor cur.pgid, .termReclaim]
          match waitRes with
          | none => (evs ++ [.printErrno], some callerMask, { s with jobList := l2 })
          | some st =>
            (evs, some callerMask,
             { s with jobList := updateById l2 jid (applyWaitStatus st) })

/-- `killFunc` from shell.c.  `killOk` is the outcome of
`kill(pgid, SIGTERM)`.  The registry is never mutated. -/
def killFunc (argv : List String) (numTokens : Int) (killOk : Bool) (s : ShellState) :
    List Event × ShellState :=
  if numTokens ≠ 2 then ([.print "kill: wrong number of arguments"], s)
  else
    let jid := stringToJobId (argv.getD 1 "")
    if jid = -1 then ([.print "kill: invalid job id"], s)
    else
      match findById s.jobList jid with
      | none => ([.print "kill: job not found"], s)
      | some cur =>
        if killOk then ([.sendSignal cur.pgid SIGTERM], s)
        else ([.sendSignal cur.pgid SIGTERM, .print "kill: could not terminate job"], s)

/-- Result of `sigfillset`: every signal blocked. -/
def sigfillsetMask : Int → Bool := fun _ => true

/-- `sigprocmask(SIG_BLOCK, maskOne, …)` with `maskOne = {SIGCHLD}`: the
previous mask plus SIGCHLD. -/
def blockChld (m : Int → Bool) : Int → Bool := fun sg => m sg || sg = SIGCHLD

/-- Everything `runCommand` returns/leaves behind: its effect trace, the
blocked-signal mask when the function returns, the mask in effect at the
foreground `waitpid` (when one happens), the C return value, and the
registry state. -/
structure RunResult where
  events : List Event
  finalMask : Int → Bool
  maskAtWait : Option (Int → Bool)
  ret : Int
  state : ShellState

/-- `runCommand` from shell.c (parent side).  `prevMask` is the caller's
blocked-signal mask (`prevOne`); `forkPid` is the child pid (`none` = fork
failed); `waitRes` is the `waitpid(pid, &status, WUNTRACED)` outcome for the
foreground path.  The C flow: block SIGCHLD; fork; on the parent block all
signals, register the job; background: print `[id] pid` and restore the
mask; foreground: hand the terminal over, wait (with all signals still
blocked), reclaim the terminal, then either report the wait error and
return -1 (mask left fully blocked) or record the child's new state and
restore the mask.  Fork failure returns -1 with SIGCHLD still blocked. -/
def runCommand (command : String) (argv : List String) (bgProcess : Bool)
    (prevMask : Int → Bool) (forkPid : Option Int) (waitRes : Option ChildStatus)
    (s : ShellState) : RunResult :=
  let m1 := blockChld prevMask
  match forkPid with
  | none => ⟨[], m1, none, -1, s⟩
  | some pid =>
    let originalCommand := joinString argv
    if bgProcess then
      let p := createJob command originalCommand pid RUNNING true s
      let s2 := addJob p.1 p.2
      ⟨[.print ("[" ++ toString p.1.id ++ "] " ++ toString pid)], prevMask, none, 0, s2⟩
    else
      let p := createJob command originalCommand pid RUNNING false s
      let s2 := addJob p.1 p.2
      let evs := [Event.termTo pid, Event.waitFor pid, Event.termReclaim]
      match waitRes with
      | none => ⟨evs ++ [.printErrno], sigfillsetMask, some sigfillsetMask, -1, s2⟩
      | some st =>
        ⟨evs, prevMask, some sigfillsetMask, 0,
         { s2 with jobList := updateTail s2.jobList (applyWaitStatus st) }⟩

/-- Registry-affecting steps of a shell session: a (background or
foreground-registration) launch through `runCommand`, a `cleanUpJobs` pass,
and an asynchronous reap delivered by the SIGCHLD handler. -/
inductive Op where
  | launch (command originalCommand : String) (pgid : Int) (bg : Bool)
  | cleanup
  | reap (pid : Int) (st : ChildStatus)
deriving DecidableEq, Repr

/-- Effect of one `Op` on the shell state (launch = `createJob` + `addJob`,
exactly as `runCommand` performs them). -/
def applyOp (s : ShellState) (op : Op) : ShellState :=
  match op with
  | .launch c o p b => let q := createJob c o p RUNNING b s; addJob q.1 q.2
  | .cleanup => (cleanUpJobs s).2
  | .reap pid st => { s with jobList := reapEvent s.jobList pid st }

/-- A whole session from `initJobs()`. -/
def runOps (s : ShellState) (ops : List Op) : ShellState :=
  ops.foldl applyOp s

/-- Sample jobs and states used by the concrete witnesses below. -/
def jobR : job := ⟨1, "/bin/sleep", "sleep 100 &", 42, RUNNING, true, -1⟩

def jobS : job := ⟨2, "/bin/cat", "cat", 43, STOPPED, false, -1⟩

def jobT : job := ⟨3, "/bin/echo", "echo hi", 44, TERMINATED, false, 15⟩

def jobC : job := ⟨4, "/bin/ls", "ls", 45, COMPLETED, false, -1⟩

def sampleState : ShellState := ⟨[jobR, jobS, jobT, jobC], 4, 4⟩

def emptyMask : Int → Bool := fun _ => false

/-- The job state the reaper assigns for a reported child status (statement
helper: exit → COMPLETED, stop → STOPPED, signal → TERMINATED). -/
def statusState (st : ChildStatus) : job_state :=
  match st with
  | .exited _ => COMPLETED
  | .stopped _ => STOPPED
  | .signaled _ => TERMINATED

/-- The `termSig` the reaper records: the terminating signal for a
signal-termination, otherwise the old value (statement helper). -/
def statusSig (st : ChildStatus) (old : Int) : Int :=
  match st with
  | .signaled sg => sg
  | _ => old

/-! ## Helper lemmas -/

/-- The surviving jobs of a cleanup pass are exactly the non-COMPLETED,
non-TERMINATED ones, in their original order. -/
lemma cleanUpJobsList_snd (l : List job) :
    (cleanUpJobsList l).2 = l.filter (fun j => j.state ≠ COMPLETED ∧ j.state ≠ TERMINATED) := by
  induction l with
  | nil => rfl
  | cons j rest ih =>
    cases hs : j.state <;> simp [cleanUpJobsList, hs, ih, List.filter]

/-- The output of a cleanup pass is one notice per TERMINATED job, in list
order. -/
lemma cleanUpJobsList_fst (l : List job) :
    (cleanUpJobsList l).1 = (l.filter (fun j => j.state = TERMINATED)).map termNotice := by
  induction l with
  | nil => rfl
  | cons j rest ih =>
    cases hs : j.state <;> simp [cleanUpJobsList, hs, ih, List.filter]

/-- `markJob` finds nothing when no job has the pgid. -/
lemma markJobList_not_found (l : List job) (pgid : Int) (st : job_state) (sg : Int)
    (h : ∀ j ∈ l, j.pgid ≠ pgid) : markJobList l pgid st sg = none := by
  induction l with
  | nil => rfl
  | cons j rest ih =>
    have hj : j.pgid ≠ pgid := h j (List.mem_cons_self j rest)
    have ih' := ih fun k hk => h k (List.mem_cons_of_mem j hk)
    simp [markJobList, hj, ih']

/-- `markJob` updates the first job carrying the pgid and nothing else. -/
lemma markJobList_found (l₁ : List job) (j : job) (l₂ : List job) (pgid : Int)
    (st : job_state) (sg : Int) (h₁ : ∀ k ∈ l₁, k.pgid ≠ pgid) (hj : j.pgid = pgid) :
    markJobList (l₁ ++ j :: l₂) pgid st sg =
      some (l₁ ++ { j with
                      state := st,
                      termSig := if st = TERMINATED then sg else j.termSig } :: l₂) := by
  induction l₁ with
  | nil => simp [markJobList, hj]
  | cons k rest ih =>
    have hk : k.pgid ≠ pgid := h₁ k (List.mem_cons_self k rest)
    have ih' := ih fun k' hk' => h₁ k' (List.mem_cons_of_mem k hk')
    simp [markJobList, hk, ih']

/-- `markJob` never changes job ids (it only writes `state`/`termSig`). -/
lemma markJobList_map_id (l : List job) (pgid : Int) (st : job_state) (sg : Int)
    (r : List job) (h : markJobList l pgid st sg = some r) :
    r.map job.id = l.map job.id := by
  induction l generalizing r with
  | nil => simp [markJobList] at h
  | cons j rest ih =>
    by_cases hj : j.pgid = pgid
    · simp [markJobList, hj] at h
      subst h
      simp
    · simp [markJobList, hj] at h
      obtain ⟨r', hr', hcons⟩ := h
      subst hcons
      simp [ih r' hr']

/-- `markJob` preserves the list length. -/
lemma markJobList_length (l : List job) (pgid : Int) (st : job_state) (sg : Int)
    (r : List job) (h : markJobList l pgid st sg = some r) : r.length = l.length := by
  have := markJobList_map_id l pgid st sg r h
  calc r.length = (r.map job.id).length := by simp
    _ = (l.map job.id).length := by rw [this]
    _ = l.length := by simp

/-- A reap step preserves the list length. -/
lemma reapEvent_length (l : List job) (pid : Int) (st : ChildStatus) :
    (reapEvent l pid st).length = l.length := by
  cases st <;> simp only [reapEvent] <;>
    · cases h : markJobList l pid _ _ with
      | none => simp
      | some r => simp [markJobList_length _ _ _ _ _ h]

/-- A reap step preserves the job ids. -/
lemma reapEvent_map_id (l : List job) (pid : Int) (st : ChildStatus) :
    (reapEvent l pid st).map job.id = l.map job.id := by
  cases st <;> simp only [reapEvent] <;>
    · cases h : markJobList l pid _ _ with
      | none => simp
      | some r => simp [markJobList_map_id _ _ _ _ _ h]

/-- Bookkeeping invariant of the shell's globals: `activeJobs` counts the
tracked jobs, and `nextJobId` and every tracked id are at least 1. -/
def goodState (s : ShellState) : Prop :=
  s.activeJobs = (s.jobList.length : Int) ∧ 1 ≤ s.nextJobId ∧ ∀ j ∈ s.jobList, 1 ≤ j.id

lemma goodState_init : goodState initState := by
  simp [goodState, initState]

lemma goodState_applyOp (s : ShellState) (op : Op) (h : goodState s) :
    goodState (applyOp s op) := by
  obtain ⟨hlen, hnext, hids⟩ := h
  cases op with
  | launch c o p b =>
    refine ⟨?_, ?_, ?_⟩
    · simp only [applyOp, createJob, addJob, List.length_append, List.length_singleton]
      push_cast
      omega
    · simp only [applyOp, createJob, addJob]
      split <;> omega
    · intro j hj
      simp only [applyOp, createJob, addJob, List.mem_append, List.mem_singleton] at hj
      rcases hj with hj | hj
      · exact hids j hj
      · subst hj
        simp only
        split <;> omega
  | cleanup =>
    refine ⟨?_, hnext, ?_⟩
    · simp only [applyOp, cleanUpJobs]
      omega
    · intro j hj
      simp only [applyOp, cleanUpJobs, cleanUpJobsList_snd] at hj
      exact hids j (List.mem_of_mem_filter hj)
  | reap pid st =>
    refine ⟨?_, hnext, ?_⟩
    · simp only [applyOp]
      rw [hlen, reapEvent_length]
    · intro j hj
      have hmem : j.id ∈ (reapEvent s.jobList pid st).map job.id := List.mem_map_of_mem _ hj
      rw [reapEvent_map_id] at hmem
      obtain ⟨k, hk, hkid⟩ := List.mem_map.mp hmem
      rw [← hkid]
      exact hids k hk

lemma goodState_runOps (ops : List Op) (s : ShellState) (h : goodState s) :
    goodState (runOps s ops) := by
  induction ops generalizing s with
  | nil => exact h
  | cons op rest ih => exact ih (applyOp s op) (goodState_applyOp s op h)

/-- Under the bookkeeping invariant, the `activeJobs == 0` test in
`createJob` is the same as the registry being empty. -/
lemma goodState_empty_iff (s : ShellState) (h : goodState s) :
    s.activeJobs = 0 ↔ s.jobList = [] := by
  rw [h.1]
  simp [List.length_eq_zero]

/-- Searching an id that no tracked job carries fails. -/
lemma findById_none (l : List job) (jid : Int) (h : ∀ j ∈ l, j.id ≠ jid) :
    findById l jid = none := by
  induction l with
  | nil => rfl
  | cons j rest ih =>
    have hj : j.id ≠ jid := h j (List.mem_cons_self j rest)
    have ih' := ih fun k hk => h k (List.mem_cons_of_mem j hk)
    simp [findById, hj, ih']

/-- An id-preserving pointer update commutes with the id search. -/
lemma findById_updateById (l : List job) (jid : Int) (f : job → job)
    (hf : ∀ j, (f j).id = j.id) :
    findById (updateById l jid f) jid = (findById l jid).map f := by
  induction l with
  | nil => rfl
  | cons j rest ih =>
    by_cases hj : j.id = jid
    · simp [updateById, findById, hj, hf j]
    · simp [updateById, findById, hj, ih]

/-! ## Claim theorems -/

/-- C2: the cleanup pass (`cleanUpJobs`) scans the Registry once and removes
exactly those jobs whose state is Completed or Terminated, preserving the
relative order of the remaining jobs (the survivors are a `filter` of the
original list); for each Terminated job it prints, exactly once and in list
order before removal, the line `[<id>] <pid> terminated by signal <signum>`;
after the pass no Completed or Terminated job remains in the Registry. -/
theorem claim2_cleanup_removes_completed_terminated (l : List job) (s : ShellState) :
    (cleanUpJobsList l).2 = l.filter (fun j => j.state ≠ COMPLETED ∧ j.state ≠ TERMINATED)
    ∧ (cleanUpJobsList l).1 = (l.filter (fun j => j.state = TERMINATED)).map termNotice
    ∧ (∀ j ∈ (cleanUpJobsList l).2, j.state ≠ COMPLETED ∧ j.state ≠ TERMINATED)
    ∧ (cleanUpJobs s).2.jobList
        = s.jobList.filter (fun j => j.state ≠ COMPLETED ∧ j.state ≠ TERMINATED)
    ∧ (cleanUpJobs s).1 = (s.jobList.filter (fun j => j.state = TERMINATED)).map termNotice := by
  refine ⟨cleanUpJobsList_snd l, cleanUpJobsList_fst l, ?_, ?_, ?_⟩
  · intro j hj
    rw [cleanUpJobsList_snd] at hj
    have := List.mem_filter.mp hj
    simpa using this.2
  · simp [cleanUpJobs, cleanUpJobsList_snd]
  · simp [cleanUpJobs, cleanUpJobsList_fst]

/-- Witness for C2: after cleaning the sample registry the surviving job
`jobR` is neither Completed nor Terminated. -/
theorem claim2_witness :
    jobR ∈ (cleanUpJobsList sampleState.jobList).2
    ∧ jobR.state ≠ COMPLETED ∧ jobR.state ≠ TERMINATED :=
  ⟨by decide,
   (claim2_cleanup_removes_completed_terminated sampleState.jobList sampleState).2.2.1
     jobR (by decide)⟩

/-- C4: for every child status the reaper collects, a normal exit marks the
job whose pgid matches as Completed, a stop marks it Stopped, and a signal
termination marks it Terminated recording the signal number, touching no
other job; if no tracked job has that pgid the Registry is left completely
unchanged; the handler loop consumes the reported statuses one at a time
until none remain. -/
theorem claim4_reaper (l : List job) (pid : Int) (st : ChildStatus) :
    ((∀ j ∈ l, j.pgid ≠ pid) → reapEvent l pid st = l)
    ∧ (∀ l₁ (j : job) l₂, l = l₁ ++ j :: l₂ → (∀ k ∈ l₁, k.pgid ≠ pid) → j.pgid = pid →
        reapEvent l pid st =
          l₁ ++ { j with
                    state := statusState st,
                    termSig := statusSig st j.termSig } :: l₂)
    ∧ (∀ reaps (pid2 : Int) (st2 : ChildStatus),
        sigchldHandler l ((pid2, st2) :: reaps) = sigchldHandler (reapEvent l pid2 st2) reaps)
    ∧ sigchldHandler l [] = l := by
  refine ⟨?_, ?_, fun reaps pid2 st2 => rfl, rfl⟩
  · intro h
    cases st <;> simp [reapEvent, markJobList_not_found _ _ _ _ h]
  · intro l₁ j l₂ hl h₁ hj
    subst hl
    cases st <;>
      simp [reapEvent, markJobList_found _ _ _ _ _ _ h₁ hj, statusState, statusSig]

/-- Witness for C4: a signal-termination reap on the sample list marks the
matching job Terminated with the signal recorded, and a reap whose pgid
matches nothing leaves the list unchanged. -/
theorem claim4_witness :
    reapEvent [jobR, jobS] 77 (.signaled 2) = [jobR, jobS]
    ∧ reapEvent [jobR, jobS] 43 (.signaled 2)
        = [jobR, { jobS with
                     state := TERMINATED,
                     termSig := 2 }] := by
  constructor
  · exact (claim4_reaper [jobR, jobS] 77 (.signaled 2)).1 (by decide)
  · have h := (claim4_reaper [jobR, jobS] 43 (.signaled 2)).2.1 [jobR] jobS []
      rfl (by decide) (by decide)
    simpa [statusState, statusSig] using h

/-- C1: for every sequence of job creations, cleanup passes and reaps,
`createJob` assigns id 1 when no jobs are tracked (`activeJobs == 0`, which
coincides with the registry being empty) and otherwise the previously
assigned id (`nextJobId`) plus 1; hence while the registry is non-empty two
successive launches receive ids `nextJobId + 1` and `nextJobId + 2`, and the
numbering resets to 1 (then 2) for launches after the registry becomes
empty. -/
theorem claim1_jobId_assignment (ops : List Op) (c o c2 o2 : String) (p p2 : Int)
    (b b2 : Bool) :
    ((runOps initState ops).activeJobs = 0 ↔ (runOps initState ops).jobList = [])
    ∧ ((createJob c o p RUNNING b (runOps initState ops)).1.id =
        if (runOps initState ops).jobList = [] then 1
        else (runOps initState ops).nextJobId + 1)
    ∧ ((runOps initState ops).jobList ≠ [] →
        (createJob c o p RUNNING b (runOps initState ops)).1.id
            = (runOps initState ops).nextJobId + 1
        ∧ (createJob c2 o2 p2 RUNNING b2
            (applyOp (runOps initState ops) (.launch c o p b))).1.id
            = (runOps initState ops).nextJobId + 2)
    ∧ ((runOps initState ops).jobList = [] →
        (createJob c o p RUNNING b (runOps initState ops)).1.id = 1
        ∧ (createJob c2 o2 p2 RUNNING b2
            (applyOp (runOps initState ops) (.launch c o p b))).1.id = 2) := by
  have hg := goodState_runOps ops initState goodState_init
  set s := runOps initState ops with hs
  have hiff := goodState_empty_iff s hg
  have hnonneg : 0 ≤ s.activeJobs := by
    rw [hg.1]
    exact Int.natCast_nonneg _
  refine ⟨hiff, ?_, ?_, ?_⟩
  · by_cases he : s.jobList = []
    · simp [createJob, he, hiff.mpr he]
    · have ha : ¬ s.activeJobs = 0 := fun h => he (hiff.mp h)
      simp [createJob, he, ha]
  · intro hne
    have ha : ¬ s.activeJobs = 0 := fun h => hne (hiff.mp h)
    refine ⟨by simp [createJob, ha], ?_⟩
    simp only [applyOp, createJob, addJob]
    rw [if_neg ha, if_neg (by omega : ¬ s.activeJobs + 1 = 0)]
    ring
  · intro he
    have ha : s.activeJobs = 0 := hiff.mpr he
    refine ⟨by simp [createJob, ha], ?_⟩
    simp only [applyOp, createJob, addJob]
    rw [if_pos ha, if_neg (by omega : ¬ s.activeJobs + 1 = 0)]
    norm_num

/-- Witness for C1: after two background launches, a reap and a cleanup the
registry is empty again and the next id is 1; while it was non-empty the
second launch got id 2 = 1 + 1. -/
theorem claim1_witness :
    ((runOps initState [Op.launch "/bin/a" "a" 5 true] ).jobList ≠ []
      ∧ (createJob "/bin/b" "b" 6 RUNNING true
          (runOps initState [Op.launch "/bin/a" "a" 5 true])).1.id
          = (runOps initState [Op.launch "/bin/a" "a" 5 true]).nextJobId + 1)
    ∧ ((runOps initState [Op.launch "/bin/a" "a" 5 true, Op.reap 5 (.exited 0),
          Op.cleanup]).jobList = []
      ∧ (createJob "/bin/c" "c" 7 RUNNING true
          (runOps initState [Op.launch "/bin/a" "a" 5 true, Op.reap 5 (.exited 0),
            Op.cleanup])).1.id = 1) := by
  constructor
  · exact ⟨by decide,
      ((claim1_jobId_assignment [Op.launch "/bin/a" "a" 5 true] "/bin/b" "b" "x" "x"
          6 0 true true).2.2.1 (by decide)).1⟩
  · exact ⟨by decide,
      ((claim1_jobId_assignment [Op.launch "/bin/a" "a" 5 true, Op.reap 5 (.exited 0),
          Op.cleanup] "/bin/c" "c" "x" "x" 7 0 true true).2.2.2 (by decide)).1⟩

/-- `printf("Running ")` is the word plus the separating space. -/
lemma running_space : ("Running " : String) = "Running" ++ " " := rfl

/-- `printf("Stopped ")` is the word plus the separating space. -/
lemma stopped_space : ("Stopped " : String) = "Stopped" ++ " " := rfl

/-- For a Running/Stopped job, the `printJobs` line is exactly
`[<id>] <pid> <Running|Stopped> <displayCommand> [&]`. -/
lemma printJobLine_format (j : job) (h : j.state = RUNNING ∨ j.state = STOPPED) :
    printJobLine j =
      "[" ++ toString j.id ++ "] " ++ toString j.pgid ++ " "
        ++ (if j.state = RUNNING then "Running" else "Stopped") ++ " "
        ++ j.originalCommand ++ " " ++ (if j.bgProcess then "&" else "") := by
  rcases h with h | h <;>
    simp [printJobLine, stateWord, h, running_space, stopped_space, String.append_assoc]

/-- C5: after the cleanup pass that `main` runs before dispatching a line,
the `jobs` built-in with zero arguments (token count 1) prints every tracked
job, one per line, exactly as `[<id>] <pid> <Running|Stopped>
<displayCommand> [&]` with the trailing `&` iff the job is background;
Terminated/Completed jobs are never listed (none survive the cleanup); a
token count above 1 is reported as an error and nothing is listed. -/
theorem claim5_jobs_listing (s : ShellState) (n : Int) :
    jobs 1 (cleanUpJobs s).2 = (cleanUpJobs s).2.jobList.map printJobLine
    ∧ (∀ j ∈ (cleanUpJobs s).2.jobList, j.state ≠ TERMINATED ∧ j.state ≠ COMPLETED)
    ∧ (∀ j ∈ (cleanUpJobs s).2.jobList,
        printJobLine j =
          "[" ++ toString j.id ++ "] " ++ toString j.pgid ++ " "
            ++ (if j.state = RUNNING then "Running" else "Stopped") ++ " "
            ++ j.originalCommand ++ " " ++ (if j.bgProcess then "&" else ""))
    ∧ (1 < n → jobs n (cleanUpJobs s).2 = ["jobs: too many arguments"]) := by
  have hmem : ∀ j ∈ (cleanUpJobs s).2.jobList, j.state ≠ COMPLETED ∧ j.state ≠ TERMINATED := by
    intro j hj
    simp only [cleanUpJobs, cleanUpJobsList_snd] at hj
    have := (List.mem_filter.mp hj).2
    simpa using this
  refine ⟨by simp [jobs, printJobs], fun j hj => ⟨(hmem j hj).2, (hmem j hj).1⟩, ?_, ?_⟩
  · intro j hj
    refine printJobLine_format j ?_
    have h := hmem j hj
    cases hst : j.state
    · exact Or.inl rfl
    · exact Or.inr rfl
    · exact absurd hst h.2
    · exact absurd hst h.1
  · intro hn
    simp [jobs, hn]

/-- Witness for C5: the sample Running background job is printed in the
claimed format, and `jobs` with an extra argument only reports the error. -/
theorem claim5_witness :
    printJobLine jobR
      = "[" ++ toString jobR.id ++ "] " ++ toString jobR.pgid ++ " "
        ++ (if jobR.state = RUNNING then "Running" else "Stopped") ++ " "
        ++ jobR.originalCommand ++ " " ++ (if jobR.bgProcess then "&" else "")
    ∧ jobs 2 (cleanUpJobs sampleState).2 = ["jobs: too many arguments"] :=
  ⟨(claim5_jobs_listing sampleState 2).2.2.1 jobR (by decide),
   (claim5_jobs_listing sampleState 2).2.2.2 (by norm_num)⟩

/-- The reaper's status update never changes a job's id. -/
lemma applyWaitStatus_id (st : ChildStatus) (j : job) : (applyWaitStatus st j).id = j.id := by
  cases st <;> rfl

/-- C7: `bg %N` reports an error when the referenced job is already Running
and changes nothing in that case; otherwise it marks the job background and
Running and sends SIGCONT to its process group without blocking (its trace
never contains a wait), so afterwards the job satisfies `bgProcess = true`
and `state = RUNNING`. -/
theorem claim7_bg (a : String) (s : ShellState) (cur : job) (contOk : Bool)
    (hjid : stringToJobId a ≠ -1)
    (hfind : findById s.jobList (stringToJobId a) = some cur) :
    (cur.state = RUNNING →
      bg ["bg", a] 2 contOk s = ([.print "bg: job is already running"], s))
    ∧ (cur.state ≠ RUNNING →
        (bg ["bg", a] 2 contOk s).1
          = Event.sendSignal cur.pgid SIGCONT ::
              (if contOk then [] else [Event.print "bg: could not continue process"])
        ∧ (∀ pg, Event.waitFor pg ∉ (bg ["bg", a] 2 contOk s).1)
        ∧ findById (bg ["bg", a] 2 contOk s).2.jobList (stringToJobId a)
            = some { cur with
                       bgProcess := true,
                       state := RUNNING }) := by
  constructor
  · intro hrun
    simp [bg, hjid, hfind, hrun]
  · intro hrun
    have hupd := findById_updateById s.jobList (stringToJobId a)
      (fun j => { j with
                    bgProcess := true,
                    state := RUNNING }) (fun j => rfl)
    refine ⟨?_, ?_, ?_⟩
    · cases contOk <;> simp [bg, hjid, hfind, hrun]
    · intro pg
      cases contOk <;> simp [bg, hjid, hfind, hrun]
    · cases contOk <;> simp [bg, hjid, hfind, hrun, hupd]

/-- Witness for C7: `bg %2` on the sample Stopped job sends SIGCONT and
leaves the job background and Running. -/
theorem claim7_witness :
    (bg ["bg", "%2"] 2 true sampleState).1
        = Event.sendSignal jobS.pgid SIGCONT ::
            (if true then [] else [Event.print "bg: could not continue process"])
    ∧ findById (bg ["bg", "%2"] 2 true sampleState).2.jobList (stringToJobId "%2")
        = some { jobS with
                   bgProcess := true,
                   state := RUNNING } := by
  have h := (claim7_bg "%2" sampleState jobS true (by decide) (by decide)).2 (by decide)
  exact ⟨h.1, h.2.2⟩

/-- C6: `fg %N` on an existing job marks it not-background; if the job is
Stopped it sends SIGCONT and marks it Running before blocking; it then hands
terminal control to the job's process group, blocks until the job's status
changes, and reclaims terminal control after the wait returns regardless of
the child's final state (the reclaim event follows the wait in every
branch); a wait failure is reported (`printErrno`) and leaves the job in its
last recorded state. -/
theorem claim6_fg (a : String) (s : ShellState) (cur : job) (contOk : Bool)
    (cm : Int → Bool)
    (hjid : stringToJobId a ≠ -1)
    (hfind : findById s.jobList (stringToJobId a) = some cur) :
    (cur.state = STOPPED → contOk = true →
      (fg ["fg", a] 2 contOk none cm s).1
        = [Event.sendSignal cur.pgid SIGCONT, Event.termTo cur.pgid,
           Event.waitFor cur.pgid, Event.termReclaim, Event.printErrno]
      ∧ findById (fg ["fg", a] 2 contOk none cm s).2.2.jobList (stringToJobId a)
          = some { cur with
                     bgProcess := false,
                     state := RUNNING })
    ∧ (cur.state ≠ STOPPED →
      (fg ["fg", a] 2 contOk none cm s).1
        = [Event.termTo cur.pgid, Event.waitFor cur.pgid, Event.termReclaim,
           Event.printErrno]
      ∧ findById (fg ["fg", a] 2 contOk none cm s).2.2.jobList (stringToJobId a)
          = some { cur with bgProcess := false })
    ∧ (∀ st : ChildStatus, ¬(cur.state = STOPPED ∧ contOk = false) →
      (fg ["fg", a] 2 contOk (some st) cm s).1
        = (if cur.state = STOPPED then [Event.sendSignal cur.pgid SIGCONT] else [])
            ++ [Event.termTo cur.pgid, Event.waitFor cur.pgid, Event.termReclaim]
      ∧ findById (fg ["fg", a] 2 contOk (some st) cm s).2.2.jobList (stringToJobId a)
          = some (applyWaitStatus st
              { cur with
                  bgProcess := false,
                  state := if cur.state = STOPPED then RUNNING else cur.state })) := by
  have hupd1 := findById_updateById s.jobList (stringToJobId a)
    (fun j => { j with bgProcess := false }) (fun j => rfl)
  refine ⟨?_, ?_, ?_⟩
  · intro hstop hcont
    subst hcont
    have hupd2 := findById_updateById
      (updateById s.jobList (stringToJobId a) (fun j => { j with bgProcess := false }))
      (stringToJobId a) (fun j => { j with state := RUNNING }) (fun j => rfl)
    constructor <;> simp [fg, hjid, hfind, hstop, hupd1, hupd2]
  · intro hstop
    constructor <;> cases contOk <;> simp [fg, hjid, hfind, hstop, hupd1]
  · intro st hok
    have hupd2 := findById_updateById
      (updateById s.jobList (stringToJobId a) (fun j => { j with bgProcess := false }))
      (stringToJobId a) (fun j => { j with state := RUNNING }) (fun j => rfl)
    by_cases hstop : cur.state = STOPPED
    · have hcont : contOk = true := by
        cases contOk
        · exact absurd ⟨hstop, rfl⟩ hok
        · rfl
      subst hcont
      have hupd3 := findById_updateById
        (updateById
          (updateById s.jobList (stringToJobId a) (fun j => { j with bgProcess := false }))
          (stringToJobId a) (fun j => { j with state := RUNNING }))
        (stringToJobId a) (applyWaitStatus st) (applyWaitStatus_id st)
      constructor <;> simp [fg, hjid, hfind, hstop, hupd1, hupd2, hupd3]
    · have hupd3 := findById_updateById
        (updateById s.jobList (stringToJobId a) (fun j => { j with bgProcess := false }))
        (stringToJobId a) (applyWaitStatus st) (applyWaitStatus_id st)
      constructor <;> cases contOk <;> simp [fg, hjid, hfind, hstop, hupd1, hupd3]

/-- Witness for C6: `fg %2` on the sample Stopped job with a failing wait
continues it, waits with terminal handoff and reclaim, reports the wait
error, and leaves the job Running (its last recorded state); `fg %1` on the
Running sample job with a successful wait reporting a stop leaves it
Stopped. -/
theorem claim6_witness :
    ((fg ["fg", "%2"] 2 true none (blockChld emptyMask) sampleState).1
        = [Event.sendSignal jobS.pgid SIGCONT, Event.termTo jobS.pgid,
           Event.waitFor jobS.pgid, Event.termReclaim, Event.printErrno]
      ∧ findById (fg ["fg", "%2"] 2 true none (blockChld emptyMask) sampleState).2.2.jobList
          (stringToJobId "%2")
          = some { jobS with
                     bgProcess := false,
                     state := RUNNING })
    ∧ ((fg ["fg", "%1"] 2 true (some (.stopped 20)) (blockChld emptyMask) sampleState).1
        = (if jobR.state = STOPPED then [Event.sendSignal jobR.pgid SIGCONT] else [])
            ++ [Event.termTo jobR.pgid, Event.waitFor jobR.pgid, Event.termReclaim]
      ∧ findById
          (fg ["fg", "%1"] 2 true (some (.stopped 20)) (blockChld emptyMask) sampleState).2.2.jobList
          (stringToJobId "%1")
          = some (applyWaitStatus (.stopped 20)
              { jobR with
                  bgProcess := false,
                  state := if jobR.state = STOPPED then RUNNING else jobR.state })) :=
  ⟨(claim6_fg "%2" sampleState jobS true (blockChld emptyMask)
      (by decide) (by decide)).1 rfl rfl,
   (claim6_fg "%1" sampleState jobR true (blockChld emptyMask)
      (by decide) (by decide)).2.2 (.stopped 20) (by decide)⟩

/-- C10: `bg` and `fg` mutate the job before signaling its process group:
when SIGCONT fails, `bg` has already set `bgProcess = true` and
`state = RUNNING`, and `fg` has already set `bgProcess = false`, and these
mutated values persist after the error is reported. -/
theorem claim10_mutate_before_signal (a : String) (s : ShellState) (cur : job)
    (cm : Int → Bool) (waitRes : Option ChildStatus)
    (hjid : stringToJobId a ≠ -1)
    (hfind : findById s.jobList (stringToJobId a) = some cur)
    (hstop : cur.state = STOPPED) :
    ((bg ["bg", a] 2 false s).1
        = [Event.sendSignal cur.pgid SIGCONT, Event.print "bg: could not continue process"]
      ∧ findById (bg ["bg", a] 2 false s).2.jobList (stringToJobId a)
          = some { cur with
                     bgProcess := true,
                     state := RUNNING })
    ∧ ((fg ["fg", a] 2 false waitRes cm s).1
        = [Event.sendSignal cur.pgid SIGCONT, Event.print "fg: could not continue process"]
      ∧ findById (fg ["fg", a] 2 false waitRes cm s).2.2.jobList (stringToJobId a)
          = some { cur with bgProcess := false }) := by
  have hrun : cur.state ≠ RUNNING := by
    rw [hstop]
    exact fun h => by cases h
  have hupdbg := findById_updateById s.jobList (stringToJobId a)
    (fun j => { j with
                  bgProcess := true,
                  state := RUNNING }) (fun j => rfl)
  have hupdfg := findById_updateById s.jobList (stringToJobId a)
    (fun j => { j with bgProcess := false }) (fun j => rfl)
  refine ⟨⟨?_, ?_⟩, ?_, ?_⟩
  · simp [bg, hjid, hfind, hrun]
  · simp [bg, hjid, hfind, hrun, hupdbg]
  · simp [fg, hjid, hfind, hstop]
  · simp [fg, hjid, hfind, hstop, hupdfg]

/-- Witness for C10: with a failing SIGCONT on the sample Stopped job, `bg`
leaves it background/Running and `fg` leaves it not-background. -/
theorem claim10_witness :
    (bg ["bg", "%2"] 2 false sampleState).1
        = [Event.sendSignal jobS.pgid SIGCONT, Event.print "bg: could not continue process"]
    ∧ findById (fg ["fg", "%2"] 2 false none emptyMask sampleState).2.2.jobList
        (stringToJobId "%2") = some { jobS with bgProcess := false } := by
  have h := claim10_mutate_before_signal "%2" sampleState jobS emptyMask none
    (by decide) (by decide) (by decide)
  exact ⟨h.1.1, h.2.2⟩

/-- C8 (amended): for each of `fg`, `bg` and `kill` — wrong argument count
gives `<cmd>: wrong number of arguments`; a malformed id (not `%<digits>`,
e.g. `%abc`) gives `<cmd>: invalid job id`; a well-formed id matching no
tracked job gives `<cmd>: job not found`; `%0` parses to id 0, which no
reachable registry ever contains (all ids are at least 1), so `%0` lands in
the same `job not found` case rather than a case of its own.  In every error
case the Registry is left unchanged and no crash occurs. -/
theorem claim8_invalid_refs (argv : List String) (n : Int) (s : ShellState)
    (contOk killOk : Bool) (waitRes : Option ChildStatus) (cm : Int → Bool)
    (a : String) (ops : List Op) :
    (n ≠ 2 →
      bg argv n contOk s = ([Event.print "bg: wrong number of arguments"], s)
      ∧ fg argv n contOk waitRes cm s = ([Event.print "fg: wrong number of arguments"], none, s)
      ∧ killFunc argv n killOk s = ([Event.print "kill: wrong number of arguments"], s))
    ∧ (stringToJobId a = -1 →
      bg ["bg", a] 2 contOk s = ([Event.print "bg: invalid job id"], s)
      ∧ fg ["fg", a] 2 contOk waitRes cm s = ([Event.print "fg: invalid job id"], none, s)
      ∧ killFunc ["kill", a] 2 killOk s = ([Event.print "kill: invalid job id"], s))
    ∧ (stringToJobId a ≠ -1 → findById s.jobList (stringToJobId a) = none →
      bg ["bg", a] 2 contOk s = ([Event.print "bg: job not found"], s)
      ∧ fg ["fg", a] 2 contOk waitRes cm s = ([Event.print "fg: job not found"], none, s)
      ∧ killFunc ["kill", a] 2 killOk s = ([Event.print "kill: job not found"], s))
    ∧ stringToJobId "%abc" = -1
    ∧ stringToJobId "%0" = 0
    ∧ findById (runOps initState ops).jobList 0 = none := by
  refine ⟨?_, ?_, ?_, by decide, by decide, ?_⟩
  · intro hn
    exact ⟨by simp [bg, hn], by simp [fg, hn], by simp [killFunc, hn]⟩
  · intro hbad
    exact ⟨by simp [bg, hbad], by simp [fg, hbad], by simp [killFunc, hbad]⟩
  · intro hgood hnone
    exact ⟨by simp [bg, hgood, hnone], by simp [fg, hgood, hnone],
           by simp [killFunc, hgood, hnone]⟩
  · have hg := goodState_runOps ops initState goodState_init
    exact findById_none _ 0 fun j hj => by
      have := hg.2.2 j hj
      omega

/-- Witness for C8 (amended): the three `bg` error cases on the sample
registry, each leaving the state unchanged. -/
theorem claim8_witness :
    bg ["bg"] 3 true sampleState = ([Event.print "bg: wrong number of arguments"], sampleState)
    ∧ bg ["bg", "%abc"] 2 true sampleState = ([Event.print "bg: invalid job id"], sampleState)
    ∧ bg ["bg", "%9"] 2 true sampleState = ([Event.print "bg: job not found"], sampleState) :=
  ⟨((claim8_invalid_refs ["bg"] 3 sampleState true true none emptyMask "%9" []).1
      (by decide)).1,
   ((claim8_invalid_refs ["bg", "%abc"] 2 sampleState true true none emptyMask "%abc" []).2.1
      (by decide)).1,
   ((claim8_invalid_refs ["bg", "%9"] 2 sampleState true true none emptyMask "%9" []).2.2.1
      (by decide) (by decide)).1⟩

/-- Counterexample for C8 as stated: `%0` and a well-formed id matching no
job produce the *same* error message (`job not found`) for each of `bg`,
`fg` and `kill`, so the four invalid-reference cases do not each produce a
distinct message. -/
theorem claim8_counterexample :
    (bg ["bg", "%0"] 2 true sampleState).1 = (bg ["bg", "%9"] 2 true sampleState).1
    ∧ (fg ["fg", "%0"] 2 true none emptyMask sampleState).1
        = (fg ["fg", "%9"] 2 true none emptyMask sampleState).1
    ∧ (killFunc ["kill", "%0"] 2 true sampleState).1
        = (killFunc ["kill", "%9"] 2 true sampleState).1
    ∧ (bg ["bg", "%0"] 2 true sampleState).1 = [Event.print "bg: job not found"] := by
  refine ⟨?_, ?_, ?_, ?_⟩ <;> decide

/-- C9: on `runCommand`'s error returns the blocked-signal mask is not
restored: after a fork failure the function returns -1 with SIGCHLD still
blocked, and after a foreground wait failure it returns -1 with every signal
still blocked; both success paths (background launch, foreground wait that
returns a status) restore the caller's mask and return 0. -/
theorem claim9_mask_not_restored (c : String) (argv : List String) (prev : Int → Bool)
    (waitRes : Option ChildStatus) (s : ShellState) (pid : Int) (bgp : Bool)
    (st : ChildStatus) :
    ((runCommand c argv bgp prev none waitRes s).finalMask SIGCHLD = true
      ∧ (runCommand c argv bgp prev none waitRes s).ret = -1)
    ∧ ((runCommand c argv false prev (some pid) none s).finalMask = sigfillsetMask
      ∧ (∀ sg, (runCommand c argv false prev (some pid) none s).finalMask sg = true)
      ∧ (runCommand c argv false prev (some pid) none s).ret = -1)
    ∧ ((runCommand c argv true prev (some pid) waitRes s).finalMask = prev
      ∧ (runCommand c argv true prev (some pid) waitRes s).ret = 0)
    ∧ ((runCommand c argv false prev (some pid) (some st) s).finalMask = prev
      ∧ (runCommand c argv false prev (some pid) (some st) s).ret = 0) := by
  refine ⟨⟨?_, rfl⟩, ⟨rfl, fun sg => rfl, rfl⟩, ⟨rfl, rfl⟩, ⟨rfl, rfl⟩⟩
  simp [runCommand, blockChld]

/-- Counterexample for C3 as stated: at a concrete foreground launch the
mask in effect during the blocking `waitpid` has SIGCHLD *blocked* (indeed
every signal is blocked there), so child-status-change notifications are not
allowed through during the wait. -/
theorem claim3_counterexample :
    ((runCommand "/bin/sleep" ["sleep", "5"] false emptyMask (some 42)
        (some (.stopped 20)) initState).maskAtWait).map (fun m => m SIGCHLD)
      = some true := rfl

/-- C3 (amended): both foreground blocking waits run with SIGCHLD blocked —
`runCommand` keeps every signal blocked across its wait, and `fg`'s wait
runs under the caller's mask, in which `main` has blocked SIGCHLD; the mask
is restored only after the wait returns (on the success path); the wait is
nevertheless unblocked by a child becoming Stopped, because `waitpid` is
called with WUNTRACED: a stopped status ends the wait and is recorded. -/
theorem claim3_blocked_wait (c : String) (argv : List String) (prev : Int → Bool)
    (pid k : Int) (waitRes : Option ChildStatus) (s : ShellState)
    (a : String) (cur : job) (contOk : Bool)
    (hjid : stringToJobId a ≠ -1)
    (hfind : findById s.jobList (stringToJobId a) = some cur)
    (hreach : ¬(cur.state = STOPPED ∧ contOk = false)) :
    ((runCommand c argv false prev (some pid) waitRes s).maskAtWait = some sigfillsetMask
      ∧ sigfillsetMask SIGCHLD = true)
    ∧ ((fg ["fg", a] 2 contOk waitRes (blockChld prev) s).2.1 = some (blockChld prev)
      ∧ blockChld prev SIGCHLD = true)
    ∧ ((runCommand c argv false prev (some pid) (some (.stopped k)) s).ret = 0
      ∧ (runCommand c argv false prev (some pid) (some (.stopped k)) s).finalMask = prev) := by
  refine ⟨⟨?_, rfl⟩, ⟨?_, ?_⟩, rfl, rfl⟩
  · cases waitRes <;> rfl
  · by_cases hstop : cur.state = STOPPED
    · have hcont : contOk = true := by
        cases contOk
        · exact absurd ⟨hstop, rfl⟩ hreach
        · rfl
      subst hcont
      cases waitRes <;> simp [fg, hjid, hfind, hstop]
    · cases waitRes <;> cases contOk <;> simp [fg, hjid, hfind, hstop]
  · simp [blockChld]

/-- Witness for C3 (amended): `fg %2` on the sample registry waits under
main's SIGCHLD-blocked mask. -/
theorem claim3_witness :
    (fg ["fg", "%2"] 2 true none (blockChld emptyMask) sampleState).2.1
        = some (blockChld emptyMask)
    ∧ blockChld emptyMask SIGCHLD = true :=
  (claim3_blocked_wait "/bin/cat" ["cat"] emptyMask 99 20 none sampleState "%2" jobS true
     (by decide) (by decide) (by decide)).2.1
